import Mathlib

/-!
Shallow embedding of the raw-input capture core of the repository
(`rawInput.py`, `complete_raw_input.py`, `improved_raw_input.py`,
`advanced_mouse_tracker.py`).

Machine integers from the Windows structures are modelled as `Nat`
(USHORT/DWORD/UINT fields) and `Int` (LONG fields); the one place the
code reinterprets an unsigned field as signed (`ctypes.c_short(x).value`)
is modelled explicitly by `toSigned16`.  The callback mechanism
(`if self.callback: self.callback(data)`) is modelled by returning the
list of data records the callback would receive, in order.  Wall-clock
timestamps (`time.time()`) are not part of the model.
-/

/-! ## Windows constants (`rawInput.py`, module top) -/

def WM_INPUT : Nat := 0x00FF

def RIM_TYPEMOUSE : Nat := 0

def RIM_TYPEKEYBOARD : Nat := 1

def RIM_TYPEHID : Nat := 2

def RIDEV_INPUTSINK : Nat := 0x00000100

def RIDEV_NOLEGACY : Nat := 0x00000030

def RI_MOUSE_LEFT_BUTTON_DOWN : Nat := 0x0001

def RI_MOUSE_LEFT_BUTTON_UP : Nat := 0x0002

def RI_MOUSE_RIGHT_BUTTON_DOWN : Nat := 0x0004

def RI_MOUSE_RIGHT_BUTTON_UP : Nat := 0x0008

def RI_MOUSE_MIDDLE_BUTTON_DOWN : Nat := 0x0010

def RI_MOUSE_MIDDLE_BUTTON_UP : Nat := 0x0020

def RI_MOUSE_WHEEL : Nat := 0x0400

/-- `ctypes.c_short(n).value`: reinterpret a 16-bit unsigned value as a
signed two's-complement 16-bit value. -/
def toSigned16 (n : Nat) : Int :=
  let r := n % 65536
  if r < 32768 then (r : Int) else (r : Int) - 65536

/-! ## Raw report structures (ctypes structures in `rawInput.py`) -/

/-- `RAWMOUSE` (rawInput.py lines 68-77). -/
structure RAWMOUSE where
  usFlags : Nat := 0
  usButtonFlags : Nat := 0
  usButtonData : Nat := 0
  ulRawButtons : Nat := 0
  lLastX : Int := 0
  lLastY : Int := 0
  ulExtraInformation : Nat := 0
deriving DecidableEq

/-- `RAWKEYBOARD` (rawInput.py lines 79-87). -/
structure RAWKEYBOARD where
  MakeCode : Nat := 0
  Flags : Nat := 0
  Reserved : Nat := 0
  VKey : Nat := 0
  Message : Nat := 0
  ExtraInformation : Nat := 0
deriving DecidableEq

/-- `RAWHID` (rawInput.py lines 89-94, improved_raw_input.py line 81):
the field is declared `("bRawData", ctypes.c_byte * 1)` — a ONE-element
ctypes array.  ctypes bounds-checks indexing against the declared length,
so `bRawData[0]` is the single accessible byte and `bRawData[i]` raises
`IndexError` for every `i ≥ 1`, no matter how many payload bytes the
fetched buffer actually holds behind it. -/
structure RAWHID where
  dwSizeHid : Nat := 0
  dwCount : Nat := 0
  bRawData : Int := 0
deriving DecidableEq

/-- Indexing the declared one-element `bRawData` array: the byte at
index 0, `IndexError` (modelled as `none`) at every higher index. -/
def bRawData_index (h : RAWHID) (i : Nat) : Option Int :=
  if i = 0 then some h.bRawData else none

/-- `RAWINPUT` = header plus the `RAWINPUT_UNION`; only the union member
selected by `header.dwType` is ever read by the dispatch, so the union is
modelled as a product carrying all three interpretations. -/
structure RAWINPUT where
  dwType : Nat := 0
  hDevice : Nat := 0
  mouse : RAWMOUSE := {}
  keyboard : RAWKEYBOARD := {}
  hid : RAWHID := {}
deriving DecidableEq

/-! ## Reader state and emitted events -/

/-- The statistics fields initialised in `RawInputReader.__init__`
(rawInput.py lines 133-141). -/
structure ReaderState where
  total_mouse_x : Int := 0
  total_mouse_y : Int := 0
  mouse_clicks : Nat := 0
  mouse_wheel_delta : Int := 0
  key_presses : Nat := 0
  last_key : Option Nat := none
  hid_data_count : Nat := 0
  raw_input_messages : Nat := 0
deriving DecidableEq

def initialState : ReaderState := {}

/-- The `data` dictionaries handed to the callback, one constructor per
`'type'` tag (timestamps omitted from the model). -/
inductive Event where
  | mouseMove (delta_x delta_y total_x total_y : Int) (flags : Nat)
  | mouseButton (button state : String) (click_count : Nat)
  | mouseWheel (delta total_delta : Int)
  | keyboard (vkey scan_code flags : Nat) (state : String) (key_count : Nat)
  | hid (size count : Nat) (raw_bytes : List Int) (data_count : Nat)
deriving DecidableEq

def Event.isMouseButton : Event → Bool
  | Event.mouseButton _ _ _ => true
  | _ => false

def Event.isMouseMove : Event → Bool
  | Event.mouseMove _ _ _ _ _ => true
  | _ => false

/-! ## Mouse processing (`RawInputReader.process_mouse_data`) -/

/-- The `elif` chain of rawInput.py lines 386-397 that picks the button
name and state from `button_flags`, starting from `("Unknown","Unknown")`. -/
def decode_button_priority (bf : Nat) : String × String :=
  if bf &&& RI_MOUSE_LEFT_BUTTON_DOWN ≠ 0 then ("Left", "Down")
  else if bf &&& RI_MOUSE_LEFT_BUTTON_UP ≠ 0 then ("Left", "Up")
  else if bf &&& RI_MOUSE_RIGHT_BUTTON_DOWN ≠ 0 then ("Right", "Down")
  else if bf &&& RI_MOUSE_RIGHT_BUTTON_UP ≠ 0 then ("Right", "Up")
  else if bf &&& RI_MOUSE_MIDDLE_BUTTON_DOWN ≠ 0 then ("Middle", "Down")
  else if bf &&& RI_MOUSE_MIDDLE_BUTTON_UP ≠ 0 then ("Middle", "Up")
  else ("Unknown", "Unknown")

/-- The fixed priority order of the button-bit checks, as data. -/
def button_priority_order : List (Nat × String × String) :=
  [(RI_MOUSE_LEFT_BUTTON_DOWN, "Left", "Down"),
   (RI_MOUSE_LEFT_BUTTON_UP, "Left", "Up"),
   (RI_MOUSE_RIGHT_BUTTON_DOWN, "Right", "Down"),
   (RI_MOUSE_RIGHT_BUTTON_UP, "Right", "Up"),
   (RI_MOUSE_MIDDLE_BUTTON_DOWN, "Middle", "Down"),
   (RI_MOUSE_MIDDLE_BUTTON_UP, "Middle", "Up")]

/-- First entry of a priority list whose bit intersects `bf`. -/
def first_matching (bf : Nat) : List (Nat × String × String) → String × String
  | [] => ("Unknown", "Unknown")
  | (bit, n, st) :: rest => if bf &&& bit ≠ 0 then (n, st) else first_matching bf rest

/-- `RawInputReader.process_mouse_data` (rawInput.py lines 348-408):
movement accumulation and event, then button/wheel handling.  Returns the
updated statistics state and the callback records in emission order. -/
def process_mouse_data (s : ReaderState) (m : RAWMOUSE) : ReaderState × List Event :=
  let step1 : ReaderState × List Event :=
    if m.lLastX ≠ 0 ∨ m.lLastY ≠ 0 then
      let s1 := { s with total_mouse_x := s.total_mouse_x + m.lLastX,
                         total_mouse_y := s.total_mouse_y + m.lLastY }
      (s1, [Event.mouseMove m.lLastX m.lLastY s1.total_mouse_x s1.total_mouse_y m.usFlags])
    else (s, [])
  let s1 := step1.1
  let moveEvents := step1.2
  if m.usButtonFlags ≠ 0 then
    let s2 := { s1 with mouse_clicks := s1.mouse_clicks + 1 }
    if m.usButtonFlags &&& RI_MOUSE_WHEEL ≠ 0 then
      let wheel_delta := toSigned16 m.usButtonData
      let s3 := { s2 with mouse_wheel_delta := s2.mouse_wheel_delta + wheel_delta }
      (s3, moveEvents ++ [Event.mouseWheel wheel_delta s3.mouse_wheel_delta])
    else
      let bn := decode_button_priority m.usButtonFlags
      (s2, moveEvents ++ [Event.mouseButton bn.1 bn.2 s2.mouse_clicks])
  else (s1, moveEvents)

/-! ## `CompleteRawInputCapture.decode_mouse_button`
(complete_raw_input.py lines 347-366) -/

/-- Return record of `decode_mouse_button`; the wheel branch adds a
`'data'` entry, read back elsewhere with `.get('data', 0)`. -/
structure ButtonInfo where
  button : String
  action : String
  data : Int := 0
deriving DecidableEq

/-- `CompleteRawInputCapture.decode_mouse_button`: button bits are
checked before the wheel bit, in the same fixed priority order. -/
def decode_mouse_button (button_flags button_data : Nat) : ButtonInfo :=
  if button_flags &&& RI_MOUSE_LEFT_BUTTON_DOWN ≠ 0 then { button := "left", action := "down" }
  else if button_flags &&& RI_MOUSE_LEFT_BUTTON_UP ≠ 0 then { button := "left", action := "up" }
  else if button_flags &&& RI_MOUSE_RIGHT_BUTTON_DOWN ≠ 0 then { button := "right", action := "down" }
  else if button_flags &&& RI_MOUSE_RIGHT_BUTTON_UP ≠ 0 then { button := "right", action := "up" }
  else if button_flags &&& RI_MOUSE_MIDDLE_BUTTON_DOWN ≠ 0 then { button := "middle", action := "down" }
  else if button_flags &&& RI_MOUSE_MIDDLE_BUTTON_UP ≠ 0 then { button := "middle", action := "up" }
  else if button_flags &&& RI_MOUSE_WHEEL ≠ 0 then
    let delta := toSigned16 button_data
    { button := "wheel", action := if delta > 0 then "up" else "down", data := delta }
  else { button := "unknown", action := "unknown" }

/-! ## Keyboard processing (`RawInputReader.process_keyboard_data`,
rawInput.py lines 410-428) -/

def process_keyboard_data (s : ReaderState) (k : RAWKEYBOARD) : ReaderState × List Event :=
  let s1 := { s with key_presses := s.key_presses + 1, last_key := some k.VKey }
  let key_state := if k.Flags &&& 0x01 = 0 then "down" else "up"
  (s1, [Event.keyboard k.VKey k.MakeCode k.Flags key_state s1.key_presses])

/-! ## HID processing (`RawInputReader.process_hid_data`,
rawInput.py lines 430-455) -/

/-- The rawInput.py extraction loop (lines 437-441),
`for i in range(max_bytes): try: append(bRawData[i]) except IndexError:
break` — the first index that raises stops the loop.  The first argument
is the running index `i`, the second the remaining iteration count. -/
def extract_raw_bytes_loop (h : RAWHID) : Nat → Nat → List Int
  | _, 0 => []
  | i, n + 1 =>
    match bRawData_index h i with
    | some b => b :: extract_raw_bytes_loop h (i + 1) n
    | none => []

/-- `ImprovedRawInputReader.process_hid_data`'s extraction loop
(improved_raw_input.py lines 335-337) has no `try/except`: the first
index that raises `IndexError` aborts the whole extraction (`none`), and
the exception propagates up to `process_raw_input`'s generic
`except Exception` handler (improved_raw_input.py line 244). -/
def improved_extract_raw_bytes_loop (h : RAWHID) : Nat → Nat → Option (List Int)
  | _, 0 => some []
  | i, n + 1 =>
    match bRawData_index h i with
    | some b => (improved_extract_raw_bytes_loop h (i + 1) n).map (b :: ·)
    | none => none

def process_hid_data (s : ReaderState) (h : RAWHID) : ReaderState × List Event :=
  let s1 := { s with hid_data_count := s.hid_data_count + 1 }
  let max_bytes := min (h.dwSizeHid * h.dwCount) 64
  let raw_bytes := extract_raw_bytes_loop h 0 max_bytes
  (s1, [Event.hid h.dwSizeHid h.dwCount raw_bytes s1.hid_data_count])

/-! ## Report decode and dispatch (`RawInputReader.process_raw_input`,
rawInput.py lines 305-346)

The two `GetRawInputData` calls are modelled by their observable results:
`querySize` is the byte count written by the size query, `fetchResult` the
return value of the fetch (the number of bytes actually written), and
`raw` the parsed buffer content.  The code returns before touching any
counter when `querySize` is `0` or when `fetchResult ≠ querySize`;
`raw_input_messages` is incremented only after a successful fetch, then
the report is dispatched on `header.dwType`. -/

def process_raw_input (s : ReaderState) (querySize fetchResult : Nat)
    (raw : RAWINPUT) : ReaderState × List Event :=
  if querySize = 0 then (s, [])
  else if fetchResult ≠ querySize then (s, [])
  else
    let s1 := { s with raw_input_messages := s.raw_input_messages + 1 }
    if raw.dwType = RIM_TYPEMOUSE then process_mouse_data s1 raw.mouse
    else if raw.dwType = RIM_TYPEKEYBOARD then process_keyboard_data s1 raw.keyboard
    else if raw.dwType = RIM_TYPEHID then process_hid_data s1 raw.hid
    else (s1, [])

/-- Feeding a sequence of mouse reports through `process_mouse_data`,
threading the statistics state and concatenating the emitted events. -/
def process_mouse_seq : ReaderState → List RAWMOUSE → ReaderState × List Event
  | s, [] => (s, [])
  | s, m :: rest =>
    let r := process_mouse_data s m
    let r2 := process_mouse_seq r.1 rest
    (r2.1, r.2 ++ r2.2)

/-! ## Device registration (`RawInputReader.register_devices`,
rawInput.py lines 177-303)

The five registration attempts all build a `RAWINPUTDEVICE` for usage page
`0x01` / usage `0x02` and differ only in `dwFlags` and `hwndTarget`; the
five `(flags, target)` pairs are collected here as an ordered ladder.  The
OS call `RegisterRawInputDevices` is modelled as an oracle returning
`Except Unit Bool`: `Except.error` stands for a Python exception raised by
the attempt, which the per-attempt `try/except` swallows and treats as a
failure, so no exception escapes `register_devices`. -/

structure RAWINPUTDEVICE where
  usUsagePage : Nat
  usUsage : Nat
  dwFlags : Nat
  hwndTarget : Option Nat
deriving DecidableEq

/-- The five configurations, in attempt order (methods 1-5). -/
def registration_ladder (hwnd : Option Nat) : List RAWINPUTDEVICE :=
  [⟨0x01, 0x02, RIDEV_INPUTSINK, hwnd⟩,
   ⟨0x01, 0x02, RIDEV_NOLEGACY, hwnd⟩,
   ⟨0x01, 0x02, 0, hwnd⟩,
   ⟨0x01, 0x02, RIDEV_INPUTSINK, none⟩,
   ⟨0x01, 0x02, 0, none⟩]

/-- One attempt: a nonzero return from the OS call is success; a zero
return or an exception falls through to the next method. -/
def attempt_succeeds (os : RAWINPUTDEVICE → Except Unit Bool) (c : RAWINPUTDEVICE) : Bool :=
  match os c with
  | Except.ok b => b
  | Except.error _ => false

/-- Try the rungs in order, returning the final result and the list of
configurations actually attempted. -/
def run_ladder (os : RAWINPUTDEVICE → Except Unit Bool) :
    List RAWINPUTDEVICE → Bool × List RAWINPUTDEVICE
  | [] => (false, [])
  | c :: rest =>
    if attempt_succeeds os c then (true, [c])
    else
      let r := run_ladder os rest
      (r.1, c :: r.2)

def register_devices (hwnd : Option Nat) (os : RAWINPUTDEVICE → Except Unit Bool) :
    Bool × List RAWINPUTDEVICE :=
  run_ladder os (registration_ladder hwnd)

/-! ## Advanced tracker (`AdvancedMouseTracker.handle_raw_mouse_movement`,
advanced_mouse_tracker.py lines 185-244)

The code computes `velocity = math.sqrt(dx**2 + dy**2)` and updates
`movement_direction = math.atan2(dy, dx)` only under `if velocity > 0`.
Since `sqrt v > 0` exactly when `v > 0`, the branch condition is modelled
on the squared speed `dx^2 + dy^2`, and the direction field stores the
argument pair `(dy, dx)` that `atan2` is called with, so that "atan2 is
never called with both arguments zero" is visible in the model.  The
rendering side effects of the handler (cursor query, plinko, trail,
history buffers) are outside the captured state. -/

structure TrackerState where
  raw_input_active : Bool := false
  raw_delta_x : Int := 0
  raw_delta_y : Int := 0
  movement_velocity_sq : Int := 0
  movement_direction : Option (Int × Int) := none
  total_mouse_movements : Nat := 0
deriving DecidableEq

def initialTracker : TrackerState := {}

def handle_raw_mouse_movement (s : TrackerState) (dx dy : Int) : TrackerState :=
  let vsq := dx ^ 2 + dy ^ 2
  let s1 := { s with raw_input_active := true, raw_delta_x := dx, raw_delta_y := dy,
                     movement_velocity_sq := vsq }
  let s2 := if vsq > 0 then { s1 with movement_direction := some (dy, dx) } else s1
  { s2 with total_mouse_movements := s2.total_mouse_movements + 1 }

/-! ## Cross-context delivery channel
(`advanced_mouse_tracker.py`: `self.input_queue.put(data)` in the capture
thread, and `process_raw_input_data`'s
`while not self.input_queue.empty(): data = self.input_queue.get_nowait()`
drain loop in the consumer)

The claim is scoped to events fully pushed before a drain observes them,
so the channel is modelled as its sequential FIFO contents; the stdlib
`queue.Queue` provides the cross-thread atomicity of the individual
`put`/`get_nowait` operations. -/

def input_queue_put (q : List Event) (e : Event) : List Event := q ++ [e]

/-- The drain loop: repeatedly `get_nowait` the front element until the
queue is empty, returning the observed events in retrieval order. -/
def drain_all : List Event → List Event
  | [] => []
  | e :: rest => e :: drain_all rest

/-! ## Helper lemmas -/

theorem wheel_bit_ne_zero {bf : Nat} (hw : bf &&& RI_MOUSE_WHEEL ≠ 0) : bf ≠ 0 := by
  intro h0
  rw [h0] at hw
  exact hw (Nat.zero_and _)

theorem process_mouse_data_totals (s : ReaderState) (m : RAWMOUSE) :
    (process_mouse_data s m).1.total_mouse_x = s.total_mouse_x + m.lLastX ∧
    (process_mouse_data s m).1.total_mouse_y = s.total_mouse_y + m.lLastY := by
  unfold process_mouse_data
  by_cases hx : m.lLastX ≠ 0 ∨ m.lLastY ≠ 0 <;>
    by_cases hb : m.usButtonFlags ≠ 0 <;>
      by_cases hw : m.usButtonFlags &&& RI_MOUSE_WHEEL ≠ 0 <;>
        push_neg at hx hb hw <;>
        simp_all

/-! ## Claim theorems -/

/-- C1: for every decoded mouse report whose `buttonFlags` has the wheel
bit `0x0400` set, the 16-bit `buttonData` field is reinterpreted as a
signed two's-complement value before being reported and accumulated; in
particular raw `buttonData = 0xFF88` (65416 unsigned) decodes to wheel
delta `-120`, not `65416` — in `RawInputReader.process_mouse_data` and in
`CompleteRawInputCapture.decode_mouse_button` alike. -/
theorem wheel_sign_extension (s : ReaderState) (m : RAWMOUSE)
    (hw : m.usButtonFlags &&& RI_MOUSE_WHEEL ≠ 0) :
    (process_mouse_data s m).1.mouse_wheel_delta
      = s.mouse_wheel_delta + toSigned16 m.usButtonData ∧
    Event.mouseWheel (toSigned16 m.usButtonData)
        (s.mouse_wheel_delta + toSigned16 m.usButtonData) ∈ (process_mouse_data s m).2 ∧
    toSigned16 0xFF88 = -120 ∧
    decode_mouse_button RI_MOUSE_WHEEL 0xFF88
      = { button := "wheel", action := "down", data := -120 } := by
  have hb : m.usButtonFlags ≠ 0 := wheel_bit_ne_zero hw
  refine ⟨?_, ?_, by decide, by decide⟩ <;>
  · unfold process_mouse_data
    by_cases hx : m.lLastX ≠ 0 ∨ m.lLastY ≠ 0 <;> simp [hx, hb, hw]

/-- Witness for C1 at the concrete report of the claim:
`buttonFlags = 0x0400`, `buttonData = 0xFF88`. -/
theorem wheel_sign_extension_witness :
    ((⟨0, RI_MOUSE_WHEEL, 0xFF88, 0, 0, 0, 0⟩ : RAWMOUSE).usButtonFlags &&& RI_MOUSE_WHEEL ≠ 0) ∧
    (process_mouse_data initialState ⟨0, RI_MOUSE_WHEEL, 0xFF88, 0, 0, 0, 0⟩).1.mouse_wheel_delta
      = initialState.mouse_wheel_delta + toSigned16 0xFF88 :=
  ⟨by decide,
   (wheel_sign_extension initialState ⟨0, RI_MOUSE_WHEEL, 0xFF88, 0, 0, 0, 0⟩ (by decide)).1⟩

/-- C3 (counterexample): a report whose `buttonFlags` contains only the
wheel bit `0x0400` DOES increment the click counter — `process_mouse_data`
runs `self.mouse_clicks += 1` on every non-zero `buttonFlags` before it
tests the wheel bit, so the claim that wheel-only reports leave the click
counter unchanged is false. -/
theorem click_counter_wheel_only_counterexample :
    (process_mouse_data initialState ⟨0, RI_MOUSE_WHEEL, 0, 0, 0, 0, 0⟩).1.mouse_clicks
      = initialState.mouse_clicks + 1 := by decide

/-- C3 (amended): the click counter is incremented exactly when
`buttonFlags` is non-zero — including reports whose `buttonFlags`
contains only the wheel bit. -/
theorem click_counter_any_nonzero_flags (s : ReaderState) (m : RAWMOUSE) :
    (process_mouse_data s m).1.mouse_clicks
      = if m.usButtonFlags = 0 then s.mouse_clicks else s.mouse_clicks + 1 := by
  unfold process_mouse_data
  by_cases hx : m.lLastX ≠ 0 ∨ m.lLastY ≠ 0 <;>
    by_cases hb : m.usButtonFlags = 0 <;>
      by_cases hw : m.usButtonFlags &&& RI_MOUSE_WHEEL ≠ 0 <;>
        simp_all

/-- C10: processing a keyboard report changes only the key-press counter
and last-key fields of the statistics state, leaving motion totals, click
count, wheel sum, HID packet count and the message counter unchanged;
symmetrically, processing a mouse report leaves the key-press counter,
last-key, HID packet count and message counter unchanged. -/
theorem device_class_frame (s : ReaderState) (k : RAWKEYBOARD) (m : RAWMOUSE) :
    ((process_keyboard_data s k).1.total_mouse_x = s.total_mouse_x ∧
     (process_keyboard_data s k).1.total_mouse_y = s.total_mouse_y ∧
     (process_keyboard_data s k).1.mouse_clicks = s.mouse_clicks ∧
     (process_keyboard_data s k).1.mouse_wheel_delta = s.mouse_wheel_delta ∧
     (process_keyboard_data s k).1.hid_data_count = s.hid_data_count ∧
     (process_keyboard_data s k).1.raw_input_messages = s.raw_input_messages ∧
     (process_keyboard_data s k).1.key_presses = s.key_presses + 1 ∧
     (process_keyboard_data s k).1.last_key = some k.VKey) ∧
    ((process_mouse_data s m).1.key_presses = s.key_presses ∧
     (process_mouse_data s m).1.last_key = s.last_key ∧
     (process_mouse_data s m).1.hid_data_count = s.hid_data_count ∧
     (process_mouse_data s m).1.raw_input_messages = s.raw_input_messages) := by
  constructor
  · simp [process_keyboard_data]
  · unfold process_mouse_data
    by_cases hx : m.lLastX ≠ 0 ∨ m.lLastY ≠ 0 <;>
      by_cases hb : m.usButtonFlags ≠ 0 <;>
        by_cases hw : m.usButtonFlags &&& RI_MOUSE_WHEEL ≠ 0 <;>
          simp_all

/-- C2 (counterexample): when the size query reports 16 bytes and the
fetch writes 8, `process_raw_input` returns before reaching
`self.raw_input_messages += 1`, so the `messagesSeen` counter does NOT
increment (it stays at its initial value 0), contrary to the claim that
it still increments on a size mismatch. -/
theorem size_mismatch_counter_counterexample :
    process_raw_input initialState 16 8 {} = (initialState, []) ∧
    initialState.raw_input_messages = 0 := by decide

/-- C2 (amended): for every report token where the size query returns `N`
bytes and the fetch writes `M ≠ N` bytes, the report is dropped with the
state completely unchanged: no event of any kind is produced, no
type-specific counter changes, and the `messagesSeen` counter
(`raw_input_messages`) does not increment either, because the increment
sits after the mismatch check. -/
theorem size_mismatch_drops_report (s : ReaderState) (querySize fetchResult : Nat)
    (raw : RAWINPUT) (hM : fetchResult ≠ querySize) :
    process_raw_input s querySize fetchResult raw = (s, []) := by
  unfold process_raw_input
  by_cases h0 : querySize = 0 <;> simp [h0, hM]

/-- Witness for C2's amended theorem at the concrete mismatch `N = 16`,
`M = 8`. -/
theorem size_mismatch_drops_report_witness :
    ((8 : Nat) ≠ 16) ∧ process_raw_input initialState 16 8 {} = (initialState, []) :=
  ⟨by decide, size_mismatch_drops_report initialState 16 8 {} (by decide)⟩

/-- C4 (counterexample): a report whose `buttonFlags = 0x0405` sets two
button bits (Left-Down and Right-Down) but also the wheel bit; in
`RawInputReader.process_mouse_data` the wheel bit is tested before the
button priority chain, so the report produces a wheel event and NO button
event at all — refuting the claim that every multi-button-bit report
yields exactly one button event chosen by the Left-Down-first priority
order. -/
theorem multi_bit_priority_counterexample :
    2 ≤ (button_priority_order.filter
          (fun p => (0x0405 : Nat) &&& p.1 != 0)).length ∧
    (process_mouse_data initialState ⟨0, 0x0405, 0, 0, 0, 0, 0⟩).2
      = [Event.mouseWheel 0 0] ∧
    (process_mouse_data initialState ⟨0, 0x0405, 0, 0, 0, 0, 0⟩).2.filter Event.isMouseButton
      = [] := by decide

/-- `decode_button_priority` is the first-match scan of the fixed priority
list `button_priority_order`. -/
theorem decode_button_priority_eq_first_matching (bf : Nat) :
    decode_button_priority bf = first_matching bf button_priority_order := rfl

/-- C4 (amended): for every mouse report whose `buttonFlags` is non-zero,
does not contain the wheel bit `0x0400`, and in particular sets more than
one button bit, exactly one button event is produced, chosen by the fixed
priority order Left-Down, Left-Up, Right-Down, Right-Up, Middle-Down,
Middle-Up (first matching bit wins); `buttonFlags = 0x0005` (Left-Down
and Right-Down) decodes to Left-Down only, in both
`RawInputReader.process_mouse_data` and
`CompleteRawInputCapture.decode_mouse_button`. -/
theorem multi_bit_priority_deterministic (s : ReaderState) (m : RAWMOUSE)
    (hw : m.usButtonFlags &&& RI_MOUSE_WHEEL = 0)
    (hb : m.usButtonFlags ≠ 0) :
    (process_mouse_data s m).2.filter Event.isMouseButton
      = [Event.mouseButton (first_matching m.usButtonFlags button_priority_order).1
          (first_matching m.usButtonFlags button_priority_order).2 (s.mouse_clicks + 1)] ∧
    decode_button_priority 0x0005 = ("Left", "Down") ∧
    decode_mouse_button 0x0005 0 = { button := "left", action := "down" } := by
  refine ⟨?_, by decide, by decide⟩
  unfold process_mouse_data
  rw [← decode_button_priority_eq_first_matching]
  by_cases hx : m.lLastX ≠ 0 ∨ m.lLastY ≠ 0 <;>
    simp [hx, hb, hw, Event.isMouseButton]

/-- Witness for C4's amended theorem at `buttonFlags = 0x0005`. -/
theorem multi_bit_priority_deterministic_witness :
    (process_mouse_data initialState ⟨0, 0x0005, 0, 0, 0, 0, 0⟩).2.filter Event.isMouseButton
      = [Event.mouseButton (first_matching 0x0005 button_priority_order).1
          (first_matching 0x0005 button_priority_order).2 (initialState.mouse_clicks + 1)] :=
  (multi_bit_priority_deterministic initialState ⟨0, 0x0005, 0, 0, 0, 0, 0⟩
    (by decide) (by decide)).1

/-- Once the loop index has left position 0, every further access raises:
the remainder of the rawInput.py extraction loop appends nothing. -/
theorem extract_raw_bytes_loop_past_end (h : RAWHID) :
    ∀ n : Nat, extract_raw_bytes_loop h 1 n = [] := by
  intro n
  cases n with
  | zero => rfl
  | succ n => simp [extract_raw_bytes_loop, bRawData_index]

/-- A concrete oversized generic report:
`reportSize * reportCount = 8 * 25 = 200`. -/
def hidExample : RAWHID := ⟨8, 25, 0⟩

/-- C5: the claim states the intended behavior — `raw_bytes` of length
exactly `min(reportSize * reportCount, 64)`, never an error — and the
code's own cap `max_bytes = min(dwSizeHid * dwCount, 64)` shows that
intent, but the `ctypes.c_byte * 1` declaration of `bRawData` defeats it:
indexing is bounds-checked against the declared one-element length, so
`bRawData[i]` raises `IndexError` for every `i ≥ 1`.  rawInput.py's loop
therefore extracts `min(max_bytes, 1)` bytes — for
`reportSize * reportCount = 200` it emits a 1-byte `raw_bytes`, not 64 —
and improved_raw_input.py's loop, with no `try/except`, raises out of the
extraction entirely (into the generic handler that drops the report)
whenever `max_bytes ≥ 2`. -/
theorem hid_cap_64_code_bug :
    (∀ (h : RAWHID) (n : Nat),
      (extract_raw_bytes_loop h 0 n).length = min n 1) ∧
    (process_hid_data initialState hidExample).2
      = [Event.hid 8 25 [hidExample.bRawData] 1] ∧
    (extract_raw_bytes_loop hidExample 0
        (min (hidExample.dwSizeHid * hidExample.dwCount) 64)).length = 1 ∧
    hidExample.dwSizeHid * hidExample.dwCount = 200 ∧
    improved_extract_raw_bytes_loop hidExample 0
        (min (hidExample.dwSizeHid * hidExample.dwCount) 64) = none := by
  refine ⟨?_, by decide, by decide, by decide, by decide⟩
  intro h n
  cases n with
  | zero => rfl
  | succ n =>
    simp [extract_raw_bytes_loop, bRawData_index, extract_raw_bytes_loop_past_end h n]

theorem process_mouse_seq_totals : ∀ (ms : List RAWMOUSE) (s : ReaderState),
    (process_mouse_seq s ms).1.total_mouse_x
      = s.total_mouse_x + (ms.map RAWMOUSE.lLastX).sum ∧
    (process_mouse_seq s ms).1.total_mouse_y
      = s.total_mouse_y + (ms.map RAWMOUSE.lLastY).sum
  | [], s => by simp [process_mouse_seq]
  | m :: rest, s => by
    have hstep := process_mouse_data_totals s m
    have hrest := process_mouse_seq_totals rest (process_mouse_data s m).1
    simp only [process_mouse_seq, List.map_cons, List.sum_cons]
    rw [hrest.1, hrest.2, hstep.1, hstep.2]
    constructor <;> ring

/-- The three deltas of the end-to-end scenario of C6, as raw reports. -/
def deltaSeqExample : List RAWMOUSE :=
  [⟨0, 0, 0, 0, 5, 0, 0⟩, ⟨0, 0, 0, 0, 0, 5, 0⟩, ⟨0, 0, 0, 0, -5, -5, 0⟩]

/-- C6: cumulative motion totals are the running sum of all pointer
deltas processed so far — after any sequence of mouse reports the
normalizer's `(total_x, total_y)` equals the starting totals plus the
componentwise sum of the deltas (so after the k-th report of a sequence
they equal the sum of the first k deltas); in particular feeding deltas
`(5,0)`, `(0,5)`, `(-5,-5)` yields cumulative totals `(0,0)` after the
third report and produces three distinct mouse-move events. -/
theorem cumulative_motion_totals (s : ReaderState) (ms : List RAWMOUSE) :
    ((process_mouse_seq s ms).1.total_mouse_x
        = s.total_mouse_x + (ms.map RAWMOUSE.lLastX).sum ∧
     (process_mouse_seq s ms).1.total_mouse_y
        = s.total_mouse_y + (ms.map RAWMOUSE.lLastY).sum) ∧
    (process_mouse_seq initialState deltaSeqExample).1.total_mouse_x = 0 ∧
    (process_mouse_seq initialState deltaSeqExample).1.total_mouse_y = 0 ∧
    (process_mouse_seq initialState deltaSeqExample).2
      = [Event.mouseMove 5 0 5 0 0, Event.mouseMove 0 5 5 5 0,
         Event.mouseMove (-5) (-5) 0 0 0] ∧
    (process_mouse_seq initialState deltaSeqExample).2.Pairwise (· ≠ ·) :=
  ⟨process_mouse_seq_totals ms s, by decide, by decide, by decide, by decide⟩

theorem run_ladder_result (os : RAWINPUTDEVICE → Except Unit Bool) :
    ∀ l : List RAWINPUTDEVICE, (run_ladder os l).1 = l.any (attempt_succeeds os)
  | [] => by simp [run_ladder]
  | c :: rest => by
    by_cases hc : attempt_succeeds os c <;>
      simp [run_ladder, hc, run_ladder_result os rest]

theorem run_ladder_tried (os : RAWINPUTDEVICE → Except Unit Bool) :
    ∀ l : List RAWINPUTDEVICE,
      (run_ladder os l).2
        = l.takeWhile (fun c => ! attempt_succeeds os c)
          ++ (l.dropWhile (fun c => ! attempt_succeeds os c)).take 1
  | [] => by simp [run_ladder]
  | c :: rest => by
    by_cases hc : attempt_succeeds os c <;>
      simp [run_ladder, List.takeWhile_cons, List.dropWhile_cons, hc,
        run_ladder_tried os rest]

/-- C7: device registration tries an ordered ladder of five
configurations, stopping at the first the OS accepts: the attempted list
is the failing prefix plus the first accepted rung, so once rung k
succeeds the rungs after it are never attempted; the result is `true`
exactly when some rung succeeds and `false` when all five fail, and an
exception raised by an attempt (modelled as `Except.error`, swallowed by
`attempt_succeeds`) only counts as that rung failing — it never escapes. -/
theorem registration_ladder_fallback (hwnd : Option Nat)
    (os : RAWINPUTDEVICE → Except Unit Bool) :
    (registration_ladder hwnd).length = 5 ∧
    ((register_devices hwnd os).1 = true
      ↔ ∃ c ∈ registration_ladder hwnd, attempt_succeeds os c = true) ∧
    (register_devices hwnd os).2
      = (registration_ladder hwnd).takeWhile (fun c => ! attempt_succeeds os c)
        ++ ((registration_ladder hwnd).dropWhile (fun c => ! attempt_succeeds os c)).take 1 ∧
    ((∀ c ∈ registration_ladder hwnd, attempt_succeeds os c = false) →
      (register_devices hwnd os).1 = false ∧
      (register_devices hwnd os).2 = registration_ladder hwnd) := by
  refine ⟨rfl, ?_, run_ladder_tried os _, ?_⟩
  · rw [register_devices, run_ladder_result os, List.any_eq_true]
  · intro hall
    constructor
    · rw [register_devices, run_ladder_result os]
      simp only [List.any_eq_false]
      intro c hc
      simp [hall c hc]
    · rw [register_devices, run_ladder_tried os]
      have htake : (registration_ladder hwnd).takeWhile (fun c => ! attempt_succeeds os c)
          = registration_ladder hwnd := by
        apply List.takeWhile_eq_self_iff.mpr
        intro c hc
        simp [hall c hc]
      have hdrop : (registration_ladder hwnd).dropWhile (fun c => ! attempt_succeeds os c)
          = [] := by
        apply List.dropWhile_eq_nil_iff.mpr
        intro c hc
        simp [hall c hc]
      rw [htake, hdrop]
      simp

/-- An OS oracle for which every registration attempt raises. -/
def os_all_raise : RAWINPUTDEVICE → Except Unit Bool := fun _ => Except.error ()

/-- Witness for C7 with an OS that raises on every attempt: all five
rungs are tried, the result is `false`, and no exception escapes. -/
theorem registration_ladder_fallback_witness :
    (register_devices none os_all_raise).1 = false ∧
    (register_devices none os_all_raise).2 = registration_ladder none :=
  (registration_ladder_fallback none os_all_raise).2.2.2 (by decide)

/-- C8: for every processed pointer move, the speed
`sqrt(dx^2 + dy^2)` is non-negative and is positive exactly when some
delta is non-zero; the stored movement direction (the argument pair
handed to the two-argument arctangent, `(deltaY, deltaX)`) is updated
only when the speed is positive: with both deltas zero the previous
direction is left unchanged, and every pair the arctangent is called
with is non-zero. -/
theorem speed_direction_update (s : TrackerState) (dx dy : Int) :
    0 ≤ Real.sqrt ((dx : ℝ) ^ 2 + (dy : ℝ) ^ 2) ∧
    (0 < Real.sqrt ((dx : ℝ) ^ 2 + (dy : ℝ) ^ 2) ↔ 0 < dx ^ 2 + dy ^ 2) ∧
    (handle_raw_mouse_movement s 0 0).movement_direction = s.movement_direction ∧
    (dx ≠ 0 ∨ dy ≠ 0 →
      (handle_raw_mouse_movement s dx dy).movement_direction = some (dy, dx) ∧
      (dy, dx) ≠ ((0 : Int), (0 : Int))) := by
  have hcast : ((dx ^ 2 + dy ^ 2 : Int) : ℝ) = (dx : ℝ) ^ 2 + (dy : ℝ) ^ 2 := by
    push_cast
    ring
  refine ⟨Real.sqrt_nonneg _, ?_, ?_, ?_⟩
  · rw [Real.sqrt_pos, ← hcast, Int.cast_pos]
  · simp [handle_raw_mouse_movement]
  · intro h
    have hv : 0 < dx ^ 2 + dy ^ 2 := by
      rcases h with h | h
      · have := pow_two_pos_of_ne_zero h
        nlinarith [sq_nonneg dy]
      · have := pow_two_pos_of_ne_zero h
        nlinarith [sq_nonneg dx]
    constructor
    · simp only [handle_raw_mouse_movement]
      rw [if_pos hv]
    · intro heq
      rw [Prod.mk.injEq] at heq
      rcases h with h | h
      · exact h heq.2
      · exact h heq.1

/-- Witness for C8 at the concrete pointer delta `(3, 4)`. -/
theorem speed_direction_update_witness :
    (handle_raw_mouse_movement initialTracker 3 4).movement_direction = some (4, 3) ∧
    ((4 : Int), (3 : Int)) ≠ ((0 : Int), (0 : Int)) :=
  (speed_direction_update initialTracker 3 4).2.2.2 (Or.inl (by decide))

theorem drain_all_eq : ∀ q : List Event, drain_all q = q
  | [] => rfl
  | e :: rest => by rw [drain_all, drain_all_eq rest]

theorem foldl_input_queue_put : ∀ (es q : List Event),
    es.foldl input_queue_put q = q ++ es
  | [], q => by simp
  | e :: rest, q => by
    rw [List.foldl_cons, foldl_input_queue_put rest, input_queue_put,
      List.append_assoc]
    rfl

/-- C9: the delivery channel is a lossless FIFO — after pushing the
events `es` (in order) onto a channel already holding `q`, a drain
observes exactly `q ++ es`, i.e. every fully pushed event exactly once,
in insertion order: each event's multiplicity among the drained events is
exactly its multiplicity among the pushed ones. -/
theorem channel_fifo_lossless (q es : List Event) :
    drain_all (es.foldl input_queue_put q) = q ++ es ∧
    (∀ e : Event, (drain_all (es.foldl input_queue_put q)).count e
        = q.count e + es.count e) := by
  have h : drain_all (es.foldl input_queue_put q) = q ++ es := by
    rw [foldl_input_queue_put, drain_all_eq]
  exact ⟨h, fun e => by rw [h, List.count_append]⟩
